import Mathlib

/-!
Verification of the `httplog` request-logging middleware (repository
davidn/iken, package `httplog`, file `request.go`).

The middleware wraps an HTTP handler: it evaluates a per-request decision
policy, optionally captures request/response bodies (truncated to a cap),
wraps the response writer to observe status and byte counts, and emits one
structured log event per logged request.

The embedding below models the middleware as a pure function from a
request, a handler description, and two clock readings to a `RunResult`
that records the emitted log events and what the downstream handler
received.  Definitions are translated from `src/httplog/request.go`.
Repository packages referenced by that file but not present in the given
sources (`httputil`, `logctx`, and the panic-recovery middleware) are
modelled from the specification and marked as such in their doc comments.
-/

/- Log field key constants, from the `const` block of `request.go`. -/
namespace Keys

def Duration : String := "duration"

def HTTPStatusCode : String := "http.status_code"

def HTTPMethod : String := "http.method"

def HTTPURLDetailsPath : String := "http.url_details.path"

def NetworkBytesRead : String := "network.bytes_read"

def NetworkBytesWritten : String := "network.bytes_written"

def Operation : String := "op"

def Request : String := "request"

def RequestID : String := "http.request_id"

def RequestHeaders : String := "request.headers"

def RequestError : String := "request.body_error"

def Response : String := "response"

def Stack : String := "error.stack"

end Keys

/-- Default value of the `MaxBodyLog` package variable: 24 KiB.  The
variable is process-wide configuration; the embedding threads it as an
explicit parameter `maxLog`. -/
def MaxBodyLog : Nat := 24 * 1024

/-- `stackSkip` constant from `request.go`: the number of innermost stack
frames belonging to the logging machinery, skipped by the stack logger. -/
def stackSkip : Nat := 3

/-- zerolog severity levels used by the middleware. -/
inductive Level where
  | DebugLevel
  | InfoLevel
  | WarnLevel
  | ErrorLevel
deriving DecidableEq, Repr

/-- An inbound HTTP request, with the parts the middleware reads: method,
URL (path component and full rendering), headers, and the body stream.
`bodyErr` is `some e` when reading the body stream fails with error text
`e` (modelling an unreadable stream). -/
structure Request where
  method : String
  urlPath : String
  urlFull : String
  headers : List (String × String)
  body : List Nat
  bodyErr : Option String
deriving DecidableEq, Repr

/-- A value attached to a structured log field. -/
inductive FieldValue where
  | str (s : String)
  | int (n : Nat)
  | bytes (b : List Nat)
  | dur (d : Int)
  | headerDump (hs : List (String × String))
  | frames (fs : List String)
deriving DecidableEq, Repr

/-- One emitted structured log record: severity, key/value fields, and a
message string. -/
structure LogEvent where
  level : Level
  fields : List (String × FieldValue)
  message : String
deriving DecidableEq, Repr

/-- `FnToLogLevel` from `request.go`: maps a request and final status to a
severity. -/
def FnToLogLevel : Type := Request → Nat → Level

/-- `StatusToLogLevel` from `request.go`: status ≥ 500 (internal server
error) is error severity, status ≥ 400 (bad request) is warning severity,
everything else info severity. -/
def StatusToLogLevel : FnToLogLevel := fun _r status =>
  if status ≥ 500 then Level.ErrorLevel
  else if status ≥ 400 then Level.WarnLevel
  else Level.InfoLevel

/-- `FnShouldLog` from `request.go`: given a request, returns the flags
`(logRequest, logRequestBody, logResponseBody)` and the severity
function. -/
def FnShouldLog : Type := Request → Bool × Bool × Bool × FnToLogLevel

/-- `LogRequestBody` preset from `request.go`: log the request body only. -/
def LogRequestBody : FnShouldLog := fun _r => (true, true, false, StatusToLogLevel)

/-- `LogAll` preset from `request.go`: log request and response bodies. -/
def LogAll : FnShouldLog := fun _r => (true, true, true, StatusToLogLevel)

/-- The defaulting logic at the top of `RequestLogger` (request.go lines
77–83): `logRequest` defaults to true, both body flags to false, the
severity function to `StatusToLogLevel`; a non-nil `shouldLog` overrides
all four. -/
def decidePolicy (shouldLog : Option FnShouldLog) (r : Request) :
    Bool × Bool × Bool × FnToLogLevel :=
  match shouldLog with
  | none => (true, false, false, StatusToLogLevel)
  | some f => f r

/-- Modelled from the spec: `httputil.RequestIDHeader` is not under the
given sources; the spec treats request-ID extraction as reading a fixed
header name. -/
def RequestIDHeader : String := "X-Request-Id"

/-- `r.Header.Get(k)`: the first value for the key, or the empty string
when the header is absent. -/
def headerGet (r : Request) (k : String) : String :=
  match r.headers.find? (fun p => p.1 = k) with
  | some p => p.2
  | none => ""

/-- Modelled from the spec: `httputil.DumpHeader` is not under the given
sources; the spec treats it as a provided function producing a loggable
representation of the request headers. -/
def DumpHeader (r : Request) : List (String × String) := r.headers

/-- Modelled from the spec: `httputil.DumpBody` is not under the given
sources; per the spec it reads the full body, re-attaches the original
bytes to the request so downstream handlers are unaffected, and returns
the bytes or a read error. -/
def DumpBody (r : Request) : Except String (List Nat) :=
  match r.bodyErr with
  | some e => Except.error e
  | none => Except.ok r.body

/-- Modelled from the spec: `logctx.AddBytes` is not under the given
sources; per the spec's CapturedBody invariant it attaches the byte
sequence truncated to the cap, recording the original byte count as a
separate numeric field (`<key>.size`). -/
def AddBytes (l : List (String × FieldValue)) (key : String) (body : List Nat)
    (maxLog : Nat) : List (String × FieldValue) :=
  l ++ [(key ++ ".size", FieldValue.int body.length),
        (key, FieldValue.bytes (body.take maxLog))]

/-- `logBody` from `request.go`: on a body-read error, record the error
text under `request.body_error`; otherwise record the body size under
`network.bytes_read` and attach the (truncated) body bytes. -/
def logBody (maxLog : Nat) (l : List (String × FieldValue)) (r : Request) :
    List (String × FieldValue) :=
  match DumpBody r with
  | Except.error e => l ++ [(Keys.RequestError, FieldValue.str e)]
  | Except.ok body =>
      AddBytes (l ++ [(Keys.NetworkBytesRead, FieldValue.int body.length)])
        Keys.Request body maxLog

/-- Modelled from the spec: the state of `httputil.WrapWriter`'s response
observer (not under the given sources).  It records the first status set,
accumulates bytes written, and optionally tees written bytes into a
capture buffer. -/
structure WriterState where
  statusSet : Option Nat
  bytesWritten : Nat
  tee : Option (List Nat)
deriving DecidableEq, Repr

/-- An action the downstream handler performs on the response writer. -/
inductive WriterAction where
  | writeHeader (status : Nat)
  | write (data : List Nat)
deriving DecidableEq, Repr

/-- Modelled from the spec: one observer step.  `WriteHeader` records the
status on the first call only; `Write` implicitly records status 200 if
none was set, adds the data length to the byte counter, and appends the
data to the tee buffer when one is attached. -/
def applyAction (st : WriterState) : WriterAction → WriterState
  | WriterAction.writeHeader s =>
      if st.statusSet.isNone then { st with statusSet := some s } else st
  | WriterAction.write data =>
      { statusSet := some (st.statusSet.getD 200),
        bytesWritten := st.bytesWritten + data.length,
        tee := match st.tee with
               | some buf => some (buf ++ data)
               | none => none }

/-- Run a sequence of writer actions from a given observer state. -/
def runActions (st : WriterState) (as : List WriterAction) : WriterState :=
  as.foldl applyAction st

/-- The observer state of a fresh wrapped writer; the tee buffer is
attached exactly when response-body capture is enabled. -/
def initWriter (logResponse : Bool) : WriterState :=
  { statusSet := none, bytesWritten := 0,
    tee := if logResponse then some [] else none }

/-- Sum of the lengths of all `write` actions in a sequence. -/
def sumWrites : List WriterAction → Nat
  | [] => 0
  | WriterAction.writeHeader _ :: as => sumWrites as
  | WriterAction.write d :: as => d.length + sumWrites as

/-- The downstream handler, described by what it does per request: the
writer actions it performs and the operation label (if any) it stores in
the logging context.  Handlers described this way always return
normally; faulting handlers are modelled separately for the panic
containment middleware. -/
structure Handler where
  actions : Request → List WriterAction
  opSet : Request → Option String

/-- The writer observer state after the handler chain returns. -/
def writerAfter (logResponse : Bool) (h : Handler) (r : Request) : WriterState :=
  runActions (initWriter logResponse) (h.actions r)

/-- What one invocation of the middleware produced: the emitted log
events, whether/with what the downstream handler was invoked, and the
final observer state (`none` when no observer was created). -/
structure RunResult where
  events : List LogEvent
  handlerInvoked : Bool
  handlerRequest : Option Request
  handlerCtxId : Option String
  handlerWriterWrapped : Bool
  finalWriter : Option WriterState
  finalOp : String
deriving DecidableEq, Repr

/-- The zerolog context fields installed by `UpdateContext` before
dispatch (request.go lines 106–119): body fields when request-body
capture is on, the request ID when non-empty, then method, URL path, and
the header dump. -/
def ctxFieldsFor (maxLog : Nat) (logRequestBody : Bool) (requestID : String)
    (r : Request) : List (String × FieldValue) :=
  (if logRequestBody then logBody maxLog [] r else []) ++
  (if requestID = "" then [] else [(Keys.RequestID, FieldValue.str requestID)]) ++
  [(Keys.HTTPMethod, FieldValue.str r.method),
   (Keys.HTTPURLDetailsPath, FieldValue.str r.urlPath),
   (Keys.RequestHeaders, FieldValue.headerDump (DumpHeader r))]

/-- The wrapped writer's observer state after dispatch: the next
handler's actions run on a fresh wrapped writer (a nil next handler
performs none). -/
def writerFor (logResponse : Bool) (next : Option Handler) (r : Request) :
    WriterState :=
  match next with
  | some h => writerAfter logResponse h r
  | none => initWriter logResponse

/-- The operation label stored in the logging context during dispatch,
empty when none was set. -/
def opFor (next : Option Handler) (r : Request) : String :=
  match next with
  | some h => (h.opSet r).getD ""
  | none => ""

/-- The final status read from the wrapped writer
(`wrappedWriter.Status()`). -/
def statusFor (logResponse : Bool) (next : Option Handler) (r : Request) : Nat :=
  (writerFor logResponse next r).statusSet.getD 200

/-- The complete field list of the emitted event: the pre-dispatch
context fields, the teed response bytes when response capture is on
(request.go lines 127–129), then status, bytes written, and duration
(request.go lines 131–135). -/
def eventFields (maxLog : Nat) (logRequestBody logResponse : Bool)
    (requestID : String) (next : Option Handler) (r : Request) (t0 t1 : Int) :
    List (String × FieldValue) :=
  (if logResponse then
     AddBytes (ctxFieldsFor maxLog logRequestBody requestID r) Keys.Response
       ((writerFor logResponse next r).tee.getD []) maxLog
   else ctxFieldsFor maxLog logRequestBody requestID r) ++
  [(Keys.HTTPStatusCode, FieldValue.int (statusFor logResponse next r)),
   (Keys.NetworkBytesWritten,
    FieldValue.int (writerFor logResponse next r).bytesWritten),
   (Keys.Duration, FieldValue.dur (t1 - t0))]

/-- The single event emitted for a logged request: severity from the
policy's severity function applied to the final status, the fields above,
and the `"<status> <method> <url>"` message (`Msgf("%d %s %s", ...)`). -/
def loggedEvent (maxLog : Nat) (logRequestBody logResponse : Bool)
    (toLogLevel : FnToLogLevel) (requestID : String) (next : Option Handler)
    (r : Request) (t0 t1 : Int) : LogEvent :=
  { level := toLogLevel r (statusFor logResponse next r),
    fields := eventFields maxLog logRequestBody logResponse requestID next r t0 t1,
    message := toString (statusFor logResponse next r) ++ " " ++ r.method ++ " " ++
               r.urlFull }

/-- The gated-off path (request.go lines 89–95): no event, the next
handler invoked with the unwrapped writer and the request whose context
carries the extracted request ID. -/
def gatedResult (next : Option Handler) (r : Request) (requestID : String) :
    RunResult :=
  { events := [],
    handlerInvoked := next.isSome,
    handlerRequest := if next.isSome then some r else none,
    handlerCtxId := if next.isSome then some requestID else none,
    handlerWriterWrapped := false,
    finalWriter := none,
    finalOp := "" }

/-- The logged path: one emitted event, the handler invoked with the
wrapped writer and the context-carrying request. -/
def loggedResult (maxLog : Nat) (logRequestBody logResponse : Bool)
    (toLogLevel : FnToLogLevel) (requestID : String) (next : Option Handler)
    (r : Request) (t0 t1 : Int) : RunResult :=
  { events := [loggedEvent maxLog logRequestBody logResponse toLogLevel requestID
                 next r t0 t1],
    handlerInvoked := next.isSome,
    handlerRequest := if next.isSome then some r else none,
    handlerCtxId := if next.isSome then some requestID else none,
    handlerWriterWrapped := next.isSome,
    finalWriter := some (writerFor logResponse next r),
    finalOp := opFor next r }

/-- `RequestLogger` from `request.go`, as a function of the body-log cap,
the optional policy, the optional next handler, the request, and the two
clock readings (`t0` at entry, `t1` at emission).  Mirrors the source:
evaluate the policy with defaults (lines 77–83), extract the request ID
and install it into the context (lines 85–87), gate off unlogged requests
with the unwrapped writer (lines 89–95), otherwise wrap the writer
(teeing when response capture is on), build the logging context,
dispatch, attach response bytes, and emit one event. -/
def RequestLogger (maxLog : Nat) (shouldLog : Option FnShouldLog)
    (next : Option Handler) (r : Request) (t0 t1 : Int) : RunResult :=
  match decidePolicy shouldLog r with
  | (logRequest, logRequestBody, logResponse, toLogLevel) =>
    if logRequest = false then
      gatedResult next r (headerGet r RequestIDHeader)
    else
      loggedResult maxLog logRequestBody logResponse toLogLevel
        (headerGet r RequestIDHeader) next r t0 t1

/-- Does a field list contain an entry with the given key? -/
def hasKey (l : List (String × FieldValue)) (k : String) : Bool :=
  l.any (fun p => p.1 = k)

/-- A fault value raised by a handler: an error value, a plain string, or
anything else. -/
inductive PanicValue where
  | err (msg : String)
  | str (s : String)
  | other
deriving DecidableEq, Repr

/-- What one handler invocation does under the containment scope: either
return normally after a sequence of writer actions, or raise an unhandled
fault. -/
inductive HandlerOutcome where
  | ok (actions : List WriterAction)
  | fault (v : PanicValue)
deriving DecidableEq, Repr

/-- A handler as seen by the panic-containment middleware, together with
the raw call stack (innermost frames first) present when it faults. -/
structure PanicHandler where
  outcome : Request → HandlerOutcome
  rawStack : Request → List String

/-- Modelled from the spec: fault normalization in the panic-containment
middleware (not under the given sources).  An error-like value is used as
is; a string is wrapped with a generic internal-error marker; anything
else becomes a generic internal error. -/
def normalizeFault : PanicValue → String
  | PanicValue.err m => m
  | PanicValue.str s => "internal error: " ++ s
  | PanicValue.other => "internal error"

/-- Modelled from the spec: the simplified call stack attached to the
error event skips `stackSkip` innermost frames (those of the containment
and logging machinery) and keeps the rest in order. -/
def captureStack (raw : List String) : List String := raw.drop stackSkip

/-- The outcome of one request under the containment scope: the error
events emitted by the containment itself, and the fallback response write
(`some (status, body)`) performed on a fault. -/
structure RecoverResult where
  events : List LogEvent
  fallbackWrite : Option (Nat × String)
deriving DecidableEq, Repr

/-- Modelled from the spec: the panic-containment middleware (not under
the given sources; `request.go` only fixes its `stackSkip` constant).  A
normal return passes through; an unhandled fault is normalized, logged
once at error severity with the captured stack frames, and answered with
a generic 500 response carrying the standard status text. -/
def Recovery (h : PanicHandler) (r : Request) : RecoverResult :=
  match h.outcome r with
  | HandlerOutcome.ok _acts =>
      { events := [], fallbackWrite := none }
  | HandlerOutcome.fault v =>
      { events := [{ level := Level.ErrorLevel,
                     fields := [(Keys.Stack,
                                 FieldValue.frames (captureStack (h.rawStack r)))],
                     message := normalizeFault v }],
        fallbackWrite := some (500, "Internal Server Error") }

/-- Serving a sequence of requests, each under its own containment scope:
every request is handled, whatever earlier requests did. -/
def serveSequence (h : PanicHandler) (rs : List Request) : List RecoverResult :=
  rs.map (Recovery h)

theorem runActions_bytesWritten (as : List WriterAction) (st : WriterState) :
    (runActions st as).bytesWritten = st.bytesWritten + sumWrites as := by
  induction as generalizing st with
  | nil => simp [runActions, sumWrites]
  | cons a as ih =>
      have h1 : runActions st (a :: as) = runActions (applyAction st a) as := rfl
      rw [h1, ih]
      cases a with
      | writeHeader s =>
          simp only [applyAction, sumWrites]
          split <;> rfl
      | write d =>
          simp only [applyAction, sumWrites]
          omega

theorem requestLogger_eq_gated (maxLog : Nat) (sl : Option FnShouldLog)
    (next : Option Handler) (r : Request) (t0 t1 : Int)
    (lb rb : Bool) (lvl : FnToLogLevel)
    (hpol : decidePolicy sl r = (false, lb, rb, lvl)) :
    RequestLogger maxLog sl next r t0 t1 =
      gatedResult next r (headerGet r RequestIDHeader) := by
  unfold RequestLogger
  rw [hpol]
  rfl

theorem requestLogger_eq_logged (maxLog : Nat) (sl : Option FnShouldLog)
    (next : Option Handler) (r : Request) (t0 t1 : Int)
    (lb rb : Bool) (lvl : FnToLogLevel)
    (hpol : decidePolicy sl r = (true, lb, rb, lvl)) :
    RequestLogger maxLog sl next r t0 t1 =
      loggedResult maxLog lb rb lvl (headerGet r RequestIDHeader) next r t0 t1 := by
  unfold RequestLogger
  rw [hpol]
  rfl

/- Concrete sample inputs used by the witness theorems. -/

/-- A sample request with a request-ID header and a 20-byte readable
body. -/
def reqA : Request :=
  { method := "GET", urlPath := "/a", urlFull := "http://example.com/a",
    headers := [(RequestIDHeader, "rid-7")],
    body := [1, 2, 3, 4, 5, 6, 7, 8, 9, 10, 11, 12, 13, 14, 15, 16, 17, 18, 19, 20],
    bodyErr := none }

/-- A sample request with no request-ID header. -/
def reqNoId : Request :=
  { method := "POST", urlPath := "/b", urlFull := "http://example.com/b",
    headers := [], body := [7, 8], bodyErr := none }

/-- A sample request whose body stream fails to read. -/
def reqBadBody : Request :=
  { method := "PUT", urlPath := "/c", urlFull := "http://example.com/c",
    headers := [], body := [], bodyErr := some "read failed" }

/-- A sample handler writing a 3-byte response and storing an operation
label. -/
def handlerA : Handler :=
  { actions := fun _ => [WriterAction.write [65, 66, 67]],
    opSet := fun _ => some "doThing" }

/-- A policy enabling everything with the default severity function. -/
def policyAll : FnShouldLog := fun _r => (true, true, true, StatusToLogLevel)

/-- A policy disabling the middleware altogether. -/
def policyOff : FnShouldLog := fun _r => (false, false, false, StatusToLogLevel)

/-- C5: the default severity function `StatusToLogLevel` maps status ≥ 500
to error severity, status in [400, 500) to warning severity, and every
other status to info severity, for every request. -/
theorem statusToLogLevel_correct (r : Request) (status : Nat) :
    (500 ≤ status → StatusToLogLevel r status = Level.ErrorLevel) ∧
    (400 ≤ status → status < 500 → StatusToLogLevel r status = Level.WarnLevel) ∧
    (status < 400 → StatusToLogLevel r status = Level.InfoLevel) := by
  refine ⟨fun h => ?_, fun h1 h2 => ?_, fun h => ?_⟩ <;>
    simp only [StatusToLogLevel] <;>
    split <;>
    first
      | rfl
      | omega
      | (split <;> first | rfl | omega)

/-- Witness for C5 at statuses 503, 404, and 200. -/
theorem statusToLogLevel_correct_witness :
    StatusToLogLevel reqA 503 = Level.ErrorLevel ∧
    StatusToLogLevel reqA 404 = Level.WarnLevel ∧
    StatusToLogLevel reqA 200 = Level.InfoLevel :=
  ⟨(statusToLogLevel_correct reqA 503).1 (by decide),
   (statusToLogLevel_correct reqA 404).2.1 (by decide) (by decide),
   (statusToLogLevel_correct reqA 200).2.2 (by decide)⟩

theorem writerFor_bytesWritten (rb : Bool) (h : Handler) (r : Request) :
    (writerFor rb (some h) r).bytesWritten = sumWrites (h.actions r) := by
  simp [writerFor, writerAfter, runActions_bytesWritten, initWriter]

/-- C1: for every request that passes the logging gate and whose handler
chain returns normally, exactly one log event is emitted, and it contains
the request method, the URL path, the final status, a duration ≥ 0, and a
bytes-written count equal to the sum of the lengths of all downstream
writes. -/
theorem requestLogger_exactly_one_event (maxLog : Nat) (sl : Option FnShouldLog)
    (h : Handler) (r : Request) (t0 t1 : Int) (lb rb : Bool) (lvl : FnToLogLevel)
    (hpol : decidePolicy sl r = (true, lb, rb, lvl)) (hmono : t0 ≤ t1) :
    ∃ e, (RequestLogger maxLog sl (some h) r t0 t1).events = [e] ∧
      (Keys.HTTPMethod, FieldValue.str r.method) ∈ e.fields ∧
      (Keys.HTTPURLDetailsPath, FieldValue.str r.urlPath) ∈ e.fields ∧
      (Keys.HTTPStatusCode, FieldValue.int (statusFor rb (some h) r)) ∈ e.fields ∧
      (Keys.Duration, FieldValue.dur (t1 - t0)) ∈ e.fields ∧
      0 ≤ t1 - t0 ∧
      (Keys.NetworkBytesWritten, FieldValue.int (sumWrites (h.actions r))) ∈
        e.fields := by
  rw [requestLogger_eq_logged maxLog sl (some h) r t0 t1 lb rb lvl hpol]
  refine ⟨_, rfl, ?_, ?_, ?_, ?_, by omega, ?_⟩
  · simp only [loggedResult, loggedEvent, eventFields, ctxFieldsFor, AddBytes]
    split <;> simp
  · simp only [loggedResult, loggedEvent, eventFields, ctxFieldsFor, AddBytes]
    split <;> simp
  · simp only [loggedResult, loggedEvent, eventFields]
    simp
  · simp only [loggedResult, loggedEvent, eventFields]
    simp
  · rw [← writerFor_bytesWritten rb h r]
    simp only [loggedResult, loggedEvent, eventFields]
    simp

/-- Witness for C1 at a concrete policy, handler, request, and clock
pair. -/
theorem requestLogger_exactly_one_event_witness :
    decidePolicy (some policyAll) reqA = (true, true, true, StatusToLogLevel) ∧
    (0 : Int) ≤ 5 ∧
    ∃ e, (RequestLogger 100 (some policyAll) (some handlerA) reqA 0 5).events = [e] ∧
      (Keys.HTTPMethod, FieldValue.str reqA.method) ∈ e.fields ∧
      (Keys.HTTPURLDetailsPath, FieldValue.str reqA.urlPath) ∈ e.fields ∧
      (Keys.HTTPStatusCode,
        FieldValue.int (statusFor true (some handlerA) reqA)) ∈ e.fields ∧
      (Keys.Duration, FieldValue.dur ((5 : Int) - 0)) ∈ e.fields ∧
      (0 : Int) ≤ (5 : Int) - 0 ∧
      (Keys.NetworkBytesWritten,
        FieldValue.int (sumWrites (handlerA.actions reqA))) ∈ e.fields :=
  ⟨rfl, by decide,
   requestLogger_exactly_one_event 100 (some policyAll) handlerA reqA 0 5
     true true StatusToLogLevel rfl (by decide)⟩

theorem runActions_tee_none (as : List WriterAction) (st : WriterState)
    (h : st.tee = none) : (runActions st as).tee = none := by
  induction as generalizing st with
  | nil => exact h
  | cons a as ih =>
      have h1 : runActions st (a :: as) = runActions (applyAction st a) as := rfl
      rw [h1]
      apply ih
      cases a with
      | writeHeader s =>
          simp only [applyAction]
          split <;> simpa using h
      | write d =>
          simp only [applyAction, h]

/-- C4: when the decision policy returns shouldLog=false, no log event is
emitted and the next handler is dispatched with the original, unwrapped
response writer, so no response-observer state is created or mutated. -/
theorem requestLogger_gate_bypass (maxLog : Nat) (sl : Option FnShouldLog)
    (h : Handler) (r : Request) (t0 t1 : Int) (lb rb : Bool) (lvl : FnToLogLevel)
    (hpol : decidePolicy sl r = (false, lb, rb, lvl)) :
    (RequestLogger maxLog sl (some h) r t0 t1).events = [] ∧
    (RequestLogger maxLog sl (some h) r t0 t1).handlerInvoked = true ∧
    (RequestLogger maxLog sl (some h) r t0 t1).handlerWriterWrapped = false ∧
    (RequestLogger maxLog sl (some h) r t0 t1).finalWriter = none := by
  rw [requestLogger_eq_gated maxLog sl (some h) r t0 t1 lb rb lvl hpol]
  exact ⟨rfl, rfl, rfl, rfl⟩

/-- Witness for C4 with a concrete always-off policy. -/
theorem requestLogger_gate_bypass_witness :
    decidePolicy (some policyOff) reqA = (false, false, false, StatusToLogLevel) ∧
    ((RequestLogger 100 (some policyOff) (some handlerA) reqA 0 5).events = [] ∧
     (RequestLogger 100 (some policyOff) (some handlerA) reqA 0 5).handlerInvoked = true ∧
     (RequestLogger 100 (some policyOff) (some handlerA) reqA 0 5).handlerWriterWrapped = false ∧
     (RequestLogger 100 (some policyOff) (some handlerA) reqA 0 5).finalWriter = none) :=
  ⟨rfl, requestLogger_gate_bypass 100 (some policyOff) handlerA reqA 0 5
          false false StatusToLogLevel rfl⟩

/-- C9: even on the gated-off path, the request-ID header is extracted and
installed into the request's context before dispatch; the writer stays
unwrapped and the other request fields pass through unchanged, and no
event is emitted. -/
theorem requestLogger_gated_installs_request_id (maxLog : Nat)
    (sl : Option FnShouldLog) (h : Handler) (r : Request) (t0 t1 : Int)
    (lb rb : Bool) (lvl : FnToLogLevel)
    (hpol : decidePolicy sl r = (false, lb, rb, lvl)) :
    (RequestLogger maxLog sl (some h) r t0 t1).handlerInvoked = true ∧
    (RequestLogger maxLog sl (some h) r t0 t1).handlerCtxId =
      some (headerGet r RequestIDHeader) ∧
    (RequestLogger maxLog sl (some h) r t0 t1).handlerRequest = some r ∧
    (RequestLogger maxLog sl (some h) r t0 t1).handlerWriterWrapped = false ∧
    (RequestLogger maxLog sl (some h) r t0 t1).events = [] := by
  rw [requestLogger_eq_gated maxLog sl (some h) r t0 t1 lb rb lvl hpol]
  exact ⟨rfl, rfl, rfl, rfl, rfl⟩

/-- Witness for C9: the gated path still passes the extracted request ID
(here `"rid-7"`) to the handler's context. -/
theorem requestLogger_gated_installs_request_id_witness :
    decidePolicy (some policyOff) reqA = (false, false, false, StatusToLogLevel) ∧
    ((RequestLogger 100 (some policyOff) (some handlerA) reqA 0 5).handlerInvoked = true ∧
     (RequestLogger 100 (some policyOff) (some handlerA) reqA 0 5).handlerCtxId =
       some (headerGet reqA RequestIDHeader) ∧
     (RequestLogger 100 (some policyOff) (some handlerA) reqA 0 5).handlerRequest = some reqA ∧
     (RequestLogger 100 (some policyOff) (some handlerA) reqA 0 5).handlerWriterWrapped = false ∧
     (RequestLogger 100 (some policyOff) (some handlerA) reqA 0 5).events = []) :=
  ⟨rfl, requestLogger_gated_installs_request_id 100 (some policyOff) handlerA reqA
          0 5 false false StatusToLogLevel rfl⟩

/-- C6: with no decision policy configured (nil `shouldLog`), every request
is logged (one event), no request-body or response-body field is captured,
no tee buffer is attached, and severity comes from the default
status-derived function. -/
theorem requestLogger_nil_policy_defaults (maxLog : Nat) (h : Handler)
    (r : Request) (t0 t1 : Int) :
    ∃ e, (RequestLogger maxLog none (some h) r t0 t1).events = [e] ∧
      e.level = StatusToLogLevel r (statusFor false (some h) r) ∧
      hasKey e.fields Keys.Request = false ∧
      hasKey e.fields Keys.Response = false ∧
      hasKey e.fields Keys.RequestError = false ∧
      (writerFor false (some h) r).tee = none := by
  have hpol : decidePolicy none r = (true, false, false, StatusToLogLevel) := rfl
  rw [requestLogger_eq_logged maxLog none (some h) r t0 t1 false false
        StatusToLogLevel hpol]
  refine ⟨_, rfl, rfl, ?_, ?_, ?_, ?_⟩
  · by_cases hrid : headerGet r RequestIDHeader = "" <;>
      simp [loggedResult, loggedEvent, eventFields, ctxFieldsFor, hasKey, hrid,
            Keys.Request, Keys.RequestID, Keys.HTTPMethod, Keys.HTTPURLDetailsPath,
            Keys.RequestHeaders, Keys.HTTPStatusCode, Keys.NetworkBytesWritten,
            Keys.Duration]
  · by_cases hrid : headerGet r RequestIDHeader = "" <;>
      simp [loggedResult, loggedEvent, eventFields, ctxFieldsFor, hasKey, hrid,
            Keys.Response, Keys.RequestID, Keys.HTTPMethod, Keys.HTTPURLDetailsPath,
            Keys.RequestHeaders, Keys.HTTPStatusCode, Keys.NetworkBytesWritten,
            Keys.Duration]
  · by_cases hrid : headerGet r RequestIDHeader = "" <;>
      simp [loggedResult, loggedEvent, eventFields, ctxFieldsFor, hasKey, hrid,
            Keys.RequestError, Keys.RequestID, Keys.HTTPMethod, Keys.HTTPURLDetailsPath,
            Keys.RequestHeaders, Keys.HTTPStatusCode, Keys.NetworkBytesWritten,
            Keys.Duration]
  · exact runActions_tee_none (h.actions r) (initWriter false) rfl

/-- C10: the request-ID field is attached to the emitted event exactly when
the inbound request-ID header value is non-empty; an absent or empty header
produces an event with no request-ID field at all. -/
theorem requestLogger_request_id_field_iff (maxLog : Nat)
    (sl : Option FnShouldLog) (h : Handler) (r : Request) (t0 t1 : Int)
    (lb rb : Bool) (lvl : FnToLogLevel)
    (hpol : decidePolicy sl r = (true, lb, rb, lvl)) :
    ∃ e, (RequestLogger maxLog sl (some h) r t0 t1).events = [e] ∧
      (headerGet r RequestIDHeader ≠ "" →
        (Keys.RequestID, FieldValue.str (headerGet r RequestIDHeader)) ∈ e.fields) ∧
      (headerGet r RequestIDHeader = "" →
        hasKey e.fields Keys.RequestID = false) := by
  rw [requestLogger_eq_logged maxLog sl (some h) r t0 t1 lb rb lvl hpol]
  refine ⟨_, rfl, fun hne => ?_, fun heq => ?_⟩
  · simp only [loggedResult, loggedEvent, eventFields, ctxFieldsFor, AddBytes,
      if_neg hne]
    split <;> simp [hne]
  · cases lb <;> cases rb <;>
      rcases hbe : r.bodyErr with _ | errText <;>
      simp [loggedResult, loggedEvent, eventFields, ctxFieldsFor, AddBytes,
            hasKey, heq, logBody, DumpBody, hbe,
            Keys.RequestID, Keys.RequestError, Keys.NetworkBytesRead, Keys.Request,
            Keys.Response, Keys.HTTPMethod, Keys.HTTPURLDetailsPath,
            Keys.RequestHeaders, Keys.HTTPStatusCode, Keys.NetworkBytesWritten,
            Keys.Duration]

/-- Witness for C10: a request with header value `"rid-7"` gets the field;
a request without the header gets none. -/
theorem requestLogger_request_id_field_iff_witness :
    decidePolicy (some policyAll) reqA = (true, true, true, StatusToLogLevel) ∧
    decidePolicy (some policyAll) reqNoId = (true, true, true, StatusToLogLevel) ∧
    (∃ e, (RequestLogger 100 (some policyAll) (some handlerA) reqA 0 5).events = [e] ∧
      (headerGet reqA RequestIDHeader ≠ "" →
        (Keys.RequestID, FieldValue.str (headerGet reqA RequestIDHeader)) ∈ e.fields) ∧
      (headerGet reqA RequestIDHeader = "" →
        hasKey e.fields Keys.RequestID = false)) ∧
    (∃ e, (RequestLogger 100 (some policyAll) (some handlerA) reqNoId 0 5).events = [e] ∧
      (headerGet reqNoId RequestIDHeader ≠ "" →
        (Keys.RequestID, FieldValue.str (headerGet reqNoId RequestIDHeader)) ∈ e.fields) ∧
      (headerGet reqNoId RequestIDHeader = "" →
        hasKey e.fields Keys.RequestID = false)) :=
  ⟨rfl, rfl,
   requestLogger_request_id_field_iff 100 (some policyAll) handlerA reqA 0 5
     true true StatusToLogLevel rfl,
   requestLogger_request_id_field_iff 100 (some policyAll) handlerA reqNoId 0 5
     true true StatusToLogLevel rfl⟩

/-- C2: for every captured body — request and response — the byte sequence
attached to the emitted event has length at most the cap, and the original
pre-truncation byte count is recorded as a separate numeric field on the
same event (`network.bytes_read` for the request body, the size field
written alongside the response bytes for the response body). -/
theorem requestLogger_body_truncation (maxLog : Nat) (sl : Option FnShouldLog)
    (h : Handler) (r : Request) (t0 t1 : Int) (lvl : FnToLogLevel)
    (hpol : decidePolicy sl r = (true, true, true, lvl))
    (hbody : r.bodyErr = none) :
    ∃ e, (RequestLogger maxLog sl (some h) r t0 t1).events = [e] ∧
      (Keys.Request, FieldValue.bytes (r.body.take maxLog)) ∈ e.fields ∧
      (r.body.take maxLog).length ≤ maxLog ∧
      (Keys.NetworkBytesRead, FieldValue.int r.body.length) ∈ e.fields ∧
      (Keys.Response,
        FieldValue.bytes (((writerFor true (some h) r).tee.getD []).take maxLog)) ∈
        e.fields ∧
      (((writerFor true (some h) r).tee.getD []).take maxLog).length ≤ maxLog ∧
      (Keys.Response ++ ".size",
        FieldValue.int ((writerFor true (some h) r).tee.getD []).length) ∈
        e.fields := by
  rw [requestLogger_eq_logged maxLog sl (some h) r t0 t1 true true lvl hpol]
  have htake1 : (r.body.take maxLog).length ≤ maxLog := by
    rw [List.length_take]
    exact Nat.min_le_left _ _
  have htake2 :
      (((writerFor true (some h) r).tee.getD []).take maxLog).length ≤ maxLog := by
    rw [List.length_take]
    exact Nat.min_le_left _ _
  refine ⟨_, rfl, ?_, htake1, ?_, ?_, htake2, ?_⟩ <;>
    simp [loggedResult, loggedEvent, eventFields, ctxFieldsFor, AddBytes,
          logBody, DumpBody, hbody]

/-- Witness for C2: a 20-byte request body under cap 10 yields logged
bytes of length 10 with size field 20, and similarly for the teed
response. -/
theorem requestLogger_body_truncation_witness :
    decidePolicy (some policyAll) reqA = (true, true, true, StatusToLogLevel) ∧
    reqA.bodyErr = none ∧
    ∃ e, (RequestLogger 10 (some policyAll) (some handlerA) reqA 0 5).events = [e] ∧
      (Keys.Request, FieldValue.bytes (reqA.body.take 10)) ∈ e.fields ∧
      (reqA.body.take 10).length ≤ 10 ∧
      (Keys.NetworkBytesRead, FieldValue.int reqA.body.length) ∈ e.fields ∧
      (Keys.Response,
        FieldValue.bytes (((writerFor true (some handlerA) reqA).tee.getD []).take 10)) ∈
        e.fields ∧
      (((writerFor true (some handlerA) reqA).tee.getD []).take 10).length ≤ 10 ∧
      (Keys.Response ++ ".size",
        FieldValue.int ((writerFor true (some handlerA) reqA).tee.getD []).length) ∈
        e.fields :=
  ⟨rfl, rfl,
   requestLogger_body_truncation 10 (some policyAll) handlerA reqA 0 5
     StatusToLogLevel rfl rfl⟩

/-- C3: a request-body read failure is non-fatal: the error text is
recorded as a field on the single emitted event, no body bytes are
attached, and the request still proceeds through the handler chain. -/
theorem requestLogger_body_error_nonfatal (maxLog : Nat)
    (sl : Option FnShouldLog) (h : Handler) (r : Request) (t0 t1 : Int)
    (rb : Bool) (lvl : FnToLogLevel) (msg : String)
    (hpol : decidePolicy sl r = (true, true, rb, lvl))
    (hbody : r.bodyErr = some msg) :
    ∃ e, (RequestLogger maxLog sl (some h) r t0 t1).events = [e] ∧
      (Keys.RequestError, FieldValue.str msg) ∈ e.fields ∧
      hasKey e.fields Keys.Request = false ∧
      (RequestLogger maxLog sl (some h) r t0 t1).handlerInvoked = true := by
  rw [requestLogger_eq_logged maxLog sl (some h) r t0 t1 true rb lvl hpol]
  refine ⟨_, rfl, ?_, ?_, rfl⟩
  · simp [loggedResult, loggedEvent, eventFields, ctxFieldsFor, AddBytes,
          logBody, DumpBody, hbody]
    split <;> simp
  · cases rb <;>
      by_cases hrid : headerGet r RequestIDHeader = "" <;>
      simp [loggedResult, loggedEvent, eventFields, ctxFieldsFor, AddBytes,
            hasKey, logBody, DumpBody, hbody, hrid,
            Keys.Request, Keys.RequestError, Keys.RequestID, Keys.Response,
            Keys.HTTPMethod, Keys.HTTPURLDetailsPath, Keys.RequestHeaders,
            Keys.HTTPStatusCode, Keys.NetworkBytesWritten, Keys.Duration]

/-- Witness for C3 at a request whose body read fails with
`"read failed"`. -/
theorem requestLogger_body_error_nonfatal_witness :
    decidePolicy (some policyAll) reqBadBody = (true, true, true, StatusToLogLevel) ∧
    reqBadBody.bodyErr = some "read failed" ∧
    ∃ e, (RequestLogger 100 (some policyAll) (some handlerA) reqBadBody 0 5).events = [e] ∧
      (Keys.RequestError, FieldValue.str "read failed") ∈ e.fields ∧
      hasKey e.fields Keys.Request = false ∧
      (RequestLogger 100 (some policyAll) (some handlerA) reqBadBody 0 5).handlerInvoked = true :=
  ⟨rfl, rfl,
   requestLogger_body_error_nonfatal 100 (some policyAll) handlerA reqBadBody 0 5
     true StatusToLogLevel "read failed" rfl rfl⟩

/-- C8 counterexample: with the always-on policy, the handler stores the
operation label `"doThing"` during the request, yet the message of the
emitted event is still the formatted `"<status> <method> <url>"` string —
the emission in `request.go` never consults the operation label. -/
theorem requestLogger_message_ignores_op :
    (RequestLogger 100 (some policyAll) (some handlerA) reqA 0 5).finalOp =
      "doThing" ∧
    (RequestLogger 100 (some policyAll) (some handlerA) reqA 0 5).events.map
      LogEvent.message = ["200 GET http://example.com/a"] ∧
    ("200 GET http://example.com/a" : String) ≠ "doThing" := by
  refine ⟨rfl, ?_, by decide⟩
  decide

/-- C8 (amended): the single emitted event's message is always the
formatted `"<status> <method> <url>"` string, whether or not an operation
label was set during the request. -/
theorem requestLogger_message_format (maxLog : Nat) (sl : Option FnShouldLog)
    (h : Handler) (r : Request) (t0 t1 : Int) (lb rb : Bool) (lvl : FnToLogLevel)
    (hpol : decidePolicy sl r = (true, lb, rb, lvl)) :
    ∃ e, (RequestLogger maxLog sl (some h) r t0 t1).events = [e] ∧
      e.message =
        toString (statusFor rb (some h) r) ++ " " ++ r.method ++ " " ++ r.urlFull := by
  rw [requestLogger_eq_logged maxLog sl (some h) r t0 t1 lb rb lvl hpol]
  exact ⟨_, rfl, rfl⟩

/-- Witness for the amended C8, with an operation label set during the
request. -/
theorem requestLogger_message_format_witness :
    decidePolicy (some policyAll) reqA = (true, true, true, StatusToLogLevel) ∧
    ∃ e, (RequestLogger 100 (some policyAll) (some handlerA) reqA 0 5).events = [e] ∧
      e.message =
        toString (statusFor true (some handlerA) reqA) ++ " " ++ reqA.method ++
          " " ++ reqA.urlFull :=
  ⟨rfl, requestLogger_message_format 100 (some policyAll) handlerA reqA 0 5
          true true StatusToLogLevel rfl⟩

/-- C7: a handler raising an unhandled fault with value `"boom"` produces
exactly one error-severity event whose message contains `"boom"` and whose
stack field (the raw stack minus the `stackSkip` innermost machinery
frames) is non-empty; the fallback write is a 500 response with the
standard internal-server-error text, and subsequent requests are still
served, each under its own containment scope. -/
theorem recovery_panic_isolation (h : PanicHandler) (r : Request)
    (hfault : h.outcome r = HandlerOutcome.fault (PanicValue.str "boom"))
    (hstack : stackSkip < (h.rawStack r).length) :
    ∃ e, (Recovery h r).events = [e] ∧
      e.level = Level.ErrorLevel ∧
      (∃ pre post, e.message = pre ++ "boom" ++ post) ∧
      e.fields = [(Keys.Stack, FieldValue.frames (captureStack (h.rawStack r)))] ∧
      captureStack (h.rawStack r) ≠ [] ∧
      (Recovery h r).fallbackWrite = some (500, "Internal Server Error") ∧
      ∀ r2, serveSequence h [r, r2] = [Recovery h r, Recovery h r2] := by
  have hne : captureStack (h.rawStack r) ≠ [] := by
    have hlen : (captureStack (h.rawStack r)).length =
        (h.rawStack r).length - stackSkip := by
      simp [captureStack]
    have hpos : 0 < (captureStack (h.rawStack r)).length := by
      rw [hlen]
      omega
    exact List.length_pos.mp hpos
  have hrec : Recovery h r =
      { events := [{ level := Level.ErrorLevel,
                     fields := [(Keys.Stack,
                                 FieldValue.frames (captureStack (h.rawStack r)))],
                     message := normalizeFault (PanicValue.str "boom") }],
        fallbackWrite := some (500, "Internal Server Error") } := by
    unfold Recovery
    rw [hfault]
  refine ⟨_, by rw [hrec], rfl, ⟨"internal error: ", "", rfl⟩, rfl, hne,
          by rw [hrec], fun r2 => rfl⟩

/-- A concrete handler that faults with `"boom"` under a five-frame raw
stack. -/
def panicHandlerBoom : PanicHandler :=
  { outcome := fun _ => HandlerOutcome.fault (PanicValue.str "boom"),
    rawStack := fun _ => ["recover.frame1", "recover.frame2", "recover.frame3",
                          "app.handler", "app.main"] }

/-- Witness for C7 at the concrete faulting handler. -/
theorem recovery_panic_isolation_witness :
    panicHandlerBoom.outcome reqA = HandlerOutcome.fault (PanicValue.str "boom") ∧
    stackSkip < (panicHandlerBoom.rawStack reqA).length ∧
    ∃ e, (Recovery panicHandlerBoom reqA).events = [e] ∧
      e.level = Level.ErrorLevel ∧
      (∃ pre post, e.message = pre ++ "boom" ++ post) ∧
      e.fields = [(Keys.Stack,
                   FieldValue.frames (captureStack (panicHandlerBoom.rawStack reqA)))] ∧
      captureStack (panicHandlerBoom.rawStack reqA) ≠ [] ∧
      (Recovery panicHandlerBoom reqA).fallbackWrite =
        some (500, "Internal Server Error") ∧
      ∀ r2, serveSequence panicHandlerBoom [reqA, r2] =
        [Recovery panicHandlerBoom reqA, Recovery panicHandlerBoom r2] :=
  ⟨rfl, by decide,
   recovery_panic_isolation panicHandlerBoom reqA rfl (by decide)⟩
